import Mathlib

/-!
Verification development for the EPEX market-data collector (`main.py`).

The collector scrapes HTML tables of electricity market data, classifies each
table by its row count, down-samples or truncates it to a canonical set of
intervals, attaches a wall-clock time axis, renames columns, and accumulates
per-date frames into one CSV per (market area, modality).

This file shallowly embeds the pure core of that program:
  * the time-axis builders (`get_time_axis_hour`, `get_time_axis_30min`,
    `get_time_axis_15min`),
  * the row-count shape dispatch of `fetch_spot_data` and
    `fetch_auction_data` (striding, truncation, index assignment),
  * the numeric string coercion (`str.replace(',','').astype(float)` over
    cells already stripped by `ele.text.strip()`),
  * the column-rename maps,
  * and the per-date scan loops of `collect_continuous_market_data` and
    `collect_auction_market_data`, with the network fetch abstracted as an
    oracle that yields either a failure or the raw extracted cell grid.

Exceptions (requests failures, pandas `ValueError`/`KeyError`) are modelled
with `Except`; a timestamp is the delivery-date string paired with minutes
since midnight.
-/

namespace Epex

/-- The runtime failures of the collector: a network/HTTP error raised by
`response.raise_for_status()`, the `ValueError` raised for an unrecognized
row count, the `ValueError` raised by `astype(float)` on an uncoercible
cell, the `ValueError` pandas raises when an index of the wrong length is
assigned, the `KeyError` raised by `sort_values(by='date')` on a frame
without a `date` column, and the `ValueError` for an unknown sub-modality. -/
inductive ScanErr where
  | fetchError : ScanErr
  | unsupportedShape : Nat → ScanErr
  | numberFormat : String → ScanErr
  | indexLengthMismatch : ScanErr
  | keyErrorDate : ScanErr
  | subModalityError : String → ScanErr
  deriving DecidableEq

/-! ## String helpers (models of the Python string operations used) -/

/-- Accumulator form of Python `int()` on a digit string: `none` as soon as a
non-digit character is met. -/
def natOfDigitsAux (acc : Nat) : List Char → Option Nat
  | [] => some acc
  | c :: cs => if c.isDigit then natOfDigitsAux (10 * acc + (c.toNat - 48)) cs else none

/-- The prefix of a character list before the first occurrence of `sep`:
models Python `s.split(sep)[0]`. -/
def beforeSep (sep : List Char) : List Char → List Char
  | [] => []
  | c :: cs => if sep.isPrefixOf (c :: cs) then [] else c :: beforeSep sep cs

/-- Split a character list on a separator character (Python `s.split(sep)`). -/
def splitOnChar (sep : Char) : List Char → List (List Char)
  | [] => [[]]
  | c :: cs =>
    if c = sep then [] :: splitOnChar sep cs
    else
      match splitOnChar sep cs with
      | [] => [[c]]
      | t :: ts => (c :: t) :: ts

/-- Python `f"{n:02}"` for the hour/minute fields used by the axis builders. -/
def pad2 (n : Nat) : String := if n < 10 then "0" ++ toString n else toString n

/-- Python `str.strip()`: drop leading and trailing whitespace.  This is how
each auction cell is cleaned at extraction time (`ele.text.strip()`). -/
def py_strip (s : String) : String :=
  String.mk (((s.toList.dropWhile Char.isWhitespace).reverse.dropWhile Char.isWhitespace).reverse)

/-- Pandas `.str.replace(',', '')`: remove every comma (and nothing else). -/
def removeCommas (s : String) : String := String.mk (s.toList.filter (fun c => c != ','))

/-- Leading sign of a numeric literal; `true` means negative. -/
def splitSign : List Char → Bool × List Char
  | '+' :: cs => (false, cs)
  | '-' :: cs => (true, cs)
  | cs => (false, cs)

/-- Split at the first decimal point: integer-part characters, and the
characters after the dot when a dot is present. -/
def splitDot : List Char → List Char × Option (List Char)
  | [] => ([], none)
  | '.' :: cs => ([], some cs)
  | c :: cs =>
    let r := splitDot cs
    (c :: r.1, r.2)

/-- Model of Python `float()` restricted to optionally signed plain decimal
literals, which are the only numeric forms occurring in the scraped market
tables; exponent, `inf`/`nan` and underscore forms are outside the model.
The exact binary `float` value is represented by the exact decimal rational.
`none` models the `ValueError` Python raises on text it cannot parse,
including the empty string. -/
def pyFloat? (s : String) : Option ℚ :=
  let sc := splitSign s.toList
  let ifp := splitDot sc.2
  match ifp.2 with
  | none =>
    if ifp.1.isEmpty then none
    else (natOfDigitsAux 0 ifp.1).map (fun n => if sc.1 then -(n : ℚ) else (n : ℚ))
  | some fp =>
    if ifp.1.isEmpty && fp.isEmpty then none
    else
      match natOfDigitsAux 0 ifp.1, natOfDigitsAux 0 fp with
      | some n, some f =>
        let v : ℚ := (n : ℚ) + (f : ℚ) / (10 : ℚ) ^ fp.length
        some (if sc.1 then -v else v)
      | _, _ => none

/-- The cell-coercion pipeline of `fetch_auction_data`: the cell text is
stripped at extraction (`ele.text.strip()`), commas are removed
(`.str.replace(',', '')`), and the remainder is parsed as a decimal number
(`.astype(float)`).  A parse failure is the `ValueError` of `astype`. -/
def numeric_coercion (s : String) : Except ScanErr ℚ :=
  let cleaned := removeCommas (py_strip s)
  match pyFloat? cleaned with
  | some q => Except.ok q
  | none => Except.error (ScanErr.numberFormat cleaned)

/-! ## Time-axis builders -/

/-- A naive wall-clock timestamp: the delivery-date string paired with
minutes since midnight (`pd.to_datetime(f"{date_str} {time}")`). -/
abbrev Timestamp := String × Nat

/-- The literal hour-interval labels of `get_time_axis_hour`. -/
def index_hours : List String :=
  ["00 - 01", "01 - 02", "02 - 03", "03 - 04", "04 - 05", "05 - 06",
   "06 - 07", "07 - 08", "08 - 09", "09 - 10", "10 - 11", "11 - 12",
   "12 - 13", "13 - 14", "14 - 15", "15 - 16", "16 - 17", "17 - 18",
   "18 - 19", "19 - 20", "20 - 21", "21 - 22", "22 - 23", "23 - 24"]

/-- `int(hour_str.split(' - ')[0])` of `parse_hour_to_timestamp`. -/
def parse_hour (s : String) : Nat :=
  (natOfDigitsAux 0 (beforeSep (String.toList " - ") s.toList)).getD 0

/-- The label list of `get_time_axis_hour` after the half-day restriction
`index_hours[int(len(index_hours)/2):]` applied when `start_hour == 12`. -/
def hour_strings (start_hour : Nat) : List String :=
  if start_hour == 12 then index_hours.drop (index_hours.length / 2) else index_hours

/-- `get_time_axis_hour(date_str, start_hour)`: hour labels parsed to
timestamps at `date_str H:00:00`. -/
def get_time_axis_hour (date_str : String) (start_hour : Nat) : List Timestamp :=
  (hour_strings start_hour).map (fun h => (date_str, parse_hour h * 60))

/-- The sort key of `get_time_axis_30min`:
`(int(x.split(':')[0]), int(x.split(':')[1]))`. -/
def key30 (s : String) : Nat × Nat :=
  match splitOnChar ':' s.toList with
  | [h, m] => ((natOfDigitsAux 0 h).getD 0, (natOfDigitsAux 0 m).getD 0)
  | _ => (0, 0)

/-- Lexicographic strict comparison of sort keys (Python tuple `<`). -/
def lexLt (p q : Nat × Nat) : Bool :=
  decide (p.1 < q.1) || (p.1 == q.1 && decide (p.2 < q.2))

/-- Stable insertion into a sorted list. -/
def insertSorted (lt : α → α → Bool) (x : α) : List α → List α
  | [] => [x]
  | y :: ys => if lt x y then x :: y :: ys else y :: insertSorted lt x ys

/-- Model of Python `sorted` by a key comparison.  All key lists used in
this file have pairwise distinct keys, so stability is immaterial. -/
def pySorted (lt : α → α → Bool) (l : List α) : List α := l.foldr (insertSorted lt) []

/-- The interval labels of `get_time_axis_30min`: generated in
hour-then-half-hour order and then sorted by `(hour, minute)`. -/
def index_30min : List String :=
  pySorted (fun a b => lexLt (key30 a) (key30 b))
    (((List.range 24).map (fun h => pad2 h ++ ":00")) ++
     ((List.range 24).map (fun h => pad2 h ++ ":30")))

/-- Minutes since midnight of an `"HH:MM"` label
(`pd.to_datetime(f"{date_str} {time_str}:00")`). -/
def time_of_hm (s : String) : Nat :=
  let k := key30 s
  k.1 * 60 + k.2

/-- `get_time_axis_30min(date_str)`. -/
def get_time_axis_30min (date_str : String) : List Timestamp :=
  index_30min.map (fun t => (date_str, time_of_hm t))

/-- The interval labels of `get_time_axis_15min`:
`f"{hour:02}:{minute:02}" for hour in range(24) for minute in range(0, 60, 15)`. -/
def index_15min : List String :=
  (List.range 24).flatMap (fun h => [0, 15, 30, 45].map (fun m => pad2 h ++ ":" ++ pad2 m))

/-- `get_time_axis_15min(date_str)`. -/
def get_time_axis_15min (date_str : String) : List Timestamp :=
  index_15min.map (fun t => (date_str, time_of_hm t))

/-! ## Row selection and index assignment -/

variable {α : Type} {β : Type}

/-- Helper for `everyNth`: a countdown until the next kept element. -/
def everyNthAux (k : Nat) : Nat → List α → List α
  | _, [] => []
  | 0, x :: xs => x :: everyNthAux k (k - 1) xs
  | j + 1, _ :: xs => everyNthAux k j xs

/-- Pandas `df.iloc[::k]`: the elements at indices `0, k, 2k, ...`. -/
def everyNth (k : Nat) (l : List α) : List α := everyNthAux k 0 l

/-- Pandas index assignment `df.index = axis`, which raises a `ValueError`
when the index length does not match the frame length; followed by
`reset_index()`, it pairs each row positionally with its timestamp. -/
def set_index (axis : List Timestamp) (rows : List α) :
    Except ScanErr (List (Timestamp × α)) :=
  if axis.length = rows.length then Except.ok (axis.zip rows)
  else Except.error ScanErr.indexLengthMismatch

/-! ## Continuous (spot) path -/

/-- What the network/HTML stage of `fetch_spot_data` can yield for one date:
an HTTP failure raised by `raise_for_status()`, a page without any `<table>`
element (`DATA NOT FOUND`, an empty frame is returned), or the raw rows of
the first table found.  Row contents are abstract: the continuous shape
dispatch looks only at the row count. -/
inductive SpotPage (α : Type) where
  | fetchError : SpotPage α
  | noTable : SpotPage α
  | table : List α → SpotPage α

/-- The row-count dispatch of `fetch_spot_data` (lines 69-94): stride
selection, clock-change truncation with a printed warning, and assignment
of the full-day hourly axis.  The `Bool` records whether the irregularity
warning was printed. -/
def fetch_spot_shape (date_str : String) (data_frame : List α) :
    Except ScanErr (List (Timestamp × α) × Bool) :=
  let branch : Except ScanErr (List α × Bool) :=
    if data_frame.length = 168 then Except.ok (everyNth 7 data_frame, false)
    else if data_frame.length = 72 then Except.ok (everyNth 3 data_frame, false)
    else if data_frame.length = 74 then Except.ok ((everyNth 3 data_frame).take 24, true)
    else if data_frame.length = 24 then Except.ok (data_frame, false)
    else if data_frame.length = 172 ∨ data_frame.length = 174 then
      Except.ok ((everyNth 7 data_frame).take 24, true)
    else Except.error (ScanErr.unsupportedShape data_frame.length)
  match branch with
  | Except.error e => Except.error e
  | Except.ok lw =>
    match set_index (get_time_axis_hour date_str 0) lw.1 with
    | Except.error e => Except.error e
    | Except.ok indexed => Except.ok (indexed, lw.2)

/-- `fetch_spot_data` for one date, with the fetch/extract stage abstracted
by a `SpotPage` oracle.  There is no exception handling in the source: any
raised error is returned as `Except.error` to its caller. -/
def fetch_spot_model (date_str : String) (page : SpotPage α) :
    Except ScanErr (List (Timestamp × α) × Bool) :=
  match page with
  | SpotPage.fetchError => Except.error ScanErr.fetchError
  | SpotPage.noTable => Except.ok ([], false)
  | SpotPage.table rows => fetch_spot_shape date_str rows

/-- Ascending order on row timestamps, as `sort_values(by='date')` orders
rows of the accumulated frame (dates compare lexicographically in ISO form,
which is chronological). -/
def tsLt (a b : Timestamp) : Bool :=
  decide (a.1 < b.1) || (a.1 == b.1 && decide (a.2 < b.2))

/-- `df.sort_values(by='date')` on the accumulated rows. -/
def sort_by_date (rows : List (Timestamp × α)) : List (Timestamp × α) :=
  pySorted (fun a b => tsLt a.1 b.1) rows

/-- The per-date loop body sequence of `collect_continuous_market_data`
(lines 265-273): fetch and normalize each date in order, concatenating the
frames.  No exception is caught, so the first raised error aborts the
whole iteration. -/
def scan_dates_continuous : List (String × SpotPage α) →
    Except ScanErr (List (Timestamp × α))
  | [] => Except.ok []
  | e :: rest =>
    match fetch_spot_model e.1 e.2 with
    | Except.error e => Except.error e
    | Except.ok f =>
      match scan_dates_continuous rest with
      | Except.error e => Except.error e
      | Except.ok r => Except.ok (f.1 ++ r)

/-- One market area of `collect_continuous_market_data` after the date loop
(lines 275-288): `sort_values(by='date')` is applied unconditionally, and on
an empty concatenation (a frame with no columns at all) pandas raises a
`KeyError` for the missing `date` column; otherwise the sorted rows are
written out.  The returned rows model the written CSV content. -/
def collect_continuous_one (entries : List (String × SpotPage α)) :
    Except ScanErr (List (Timestamp × α)) :=
  match scan_dates_continuous entries with
  | Except.error e => Except.error e
  | Except.ok df =>
    if df.isEmpty then Except.error ScanErr.keyErrorDate
    else Except.ok (sort_by_date df)

/-- The market-area loop of `collect_continuous_market_data` (line 259):
areas are processed sequentially and no exception is caught, so an error in
one area aborts all subsequent areas as well. -/
def collect_continuous_all : List (List (String × SpotPage α)) →
    Except ScanErr (List (List (Timestamp × α)))
  | [] => Except.ok []
  | a :: rest =>
    match collect_continuous_one a with
    | Except.error e => Except.error e
    | Except.ok f =>
      match collect_continuous_all rest with
      | Except.error e => Except.error e
      | Except.ok r => Except.ok (f :: r)

/-! ## Auction path -/

/-- One raw auction table row: the stripped cell texts of the four columns
`Buy Volume (MWh)`, `Sell Volume (MWh)`, `Volume (MWh)`, `Price (€/MWh)`
in that order (`pd.DataFrame(data, columns=[...])`). -/
abbrev Cell4 := String × String × String × String

/-- One coerced auction row: the four cell values after `astype(float)`. -/
abbrev Row4 := ℚ × ℚ × ℚ × ℚ

/-- What the network/HTML stage of `fetch_auction_data` can yield: an HTTP
failure, or the list of `<tr class="child">`/`<tr class="child impair">`
rows (possibly empty). -/
inductive AucPage where
  | fetchError : AucPage
  | rows : List Cell4 → AucPage

/-- `data_frame[col].str.replace(',', '').astype(float)` for one column:
the whole column conversion fails on the first uncoercible cell. -/
def coerce_column : List String → Except ScanErr (List ℚ)
  | [] => Except.ok []
  | c :: cs =>
    match numeric_coercion c with
    | Except.error e => Except.error e
    | Except.ok q =>
      match coerce_column cs with
      | Except.error e => Except.error e
      | Except.ok r => Except.ok (q :: r)

/-- Rebuild rows from the four coerced columns. -/
def zip4 : List ℚ → List ℚ → List ℚ → List ℚ → List Row4
  | b :: bs, s :: ss, v :: vs, p :: ps => (b, s, v, p) :: zip4 bs ss vs ps
  | _, _, _, _ => []

/-- The column loop of `fetch_auction_data` (lines 192-193): every one of
the four columns of the whole raw frame is coerced, in column order, before
anything else happens. -/
def coerce_frame (data : List Cell4) : Except ScanErr (List Row4) :=
  match coerce_column (data.map (fun r => r.1)) with
  | Except.error e => Except.error e
  | Except.ok b =>
    match coerce_column (data.map (fun r => r.2.1)) with
    | Except.error e => Except.error e
    | Except.ok s =>
      match coerce_column (data.map (fun r => r.2.2.1)) with
      | Except.error e => Except.error e
      | Except.ok v =>
        match coerce_column (data.map (fun r => r.2.2.2)) with
        | Except.error e => Except.error e
        | Except.ok p => Except.ok (zip4 b s v p)

/-- The row-count dispatch of `fetch_auction_data` (lines 196-230), applied
to the already-coerced frame: zero rows is an informational empty result
(not an error); 12/24/48/96 attach the matching axis; 50 and 100 truncate
to 48 resp. 96 rows with a printed warning before attaching the axis; any
other count raises.  The `Bool` records the irregularity warning. -/
def fetch_auction_shape (delivery_date_str : String) (data_frame : List Row4) :
    Except ScanErr (List (Timestamp × Row4) × Bool) :=
  if data_frame.length = 0 then Except.ok ([], false)
  else
    let branch : Except ScanErr (List Row4 × List Timestamp × Bool) :=
      if data_frame.length = 12 then
        Except.ok (data_frame, get_time_axis_hour delivery_date_str 12, false)
      else if data_frame.length = 24 then
        Except.ok (data_frame, get_time_axis_hour delivery_date_str 0, false)
      else if data_frame.length = 48 then
        Except.ok (data_frame, get_time_axis_30min delivery_date_str, false)
      else if data_frame.length = 50 then
        Except.ok (data_frame.take 48, get_time_axis_30min delivery_date_str, true)
      else if data_frame.length = 96 then
        Except.ok (data_frame, get_time_axis_15min delivery_date_str, false)
      else if data_frame.length = 100 then
        Except.ok (data_frame.take 96, get_time_axis_15min delivery_date_str, true)
      else Except.error (ScanErr.unsupportedShape data_frame.length)
    match branch with
    | Except.error e => Except.error e
    | Except.ok law =>
      match set_index law.2.1 law.1 with
      | Except.error e => Except.error e
      | Except.ok indexed => Except.ok (indexed, law.2.2)

/-- `fetch_auction_data` for one date, with the fetch/extract stage
abstracted by an `AucPage` oracle: the whole frame is coerced first
(lines 192-193), and only then is the row count examined. -/
def fetch_auction_model (delivery_date_str : String) (page : AucPage) :
    Except ScanErr (List (Timestamp × Row4) × Bool) :=
  match page with
  | AucPage.fetchError => Except.error ScanErr.fetchError
  | AucPage.rows data =>
    match coerce_frame data with
    | Except.error e => Except.error e
    | Except.ok df => fetch_auction_shape delivery_date_str df

/-- The request URL of `collect_auction_market_data` (line 308). -/
def auction_url (market_area auction trading_date_str delivery_date_str
    sub_modality : String) : String :=
  "https://www.epexspot.com/en/market-data?market_area=" ++ market_area ++
  "&auction=" ++ auction ++ "&trading_date=" ++ trading_date_str ++
  "&delivery_date=" ++ delivery_date_str ++
  "&underlying_year=&modality=Auction&sub_modality=" ++ sub_modality ++
  "&technology=&data_mode=table&period=&production_period="

/-- The delivery-date computation of `collect_auction_market_data`
(lines 299-302): trading date plus one day for `DayAhead`, the trading date
itself for `Intraday`, a raised `ValueError` otherwise.  Calendar dates are
modelled as day numbers. -/
def auction_delivery_date (sub_modality : String) (date : Int) : Except ScanErr Int :=
  if sub_modality = "DayAhead" then Except.ok (date + 1)
  else if sub_modality = "Intraday" then Except.ok date
  else Except.error (ScanErr.subModalityError sub_modality)

/-- One trading date of the auction scan loop (lines 297-310): compute the
delivery date, build the URL from the trading- and delivery-date strings,
fetch, and normalize with the delivery-date time axis.  `dateStr` renders a
day number as the `%Y-%m-%d` string; `fetch` is the page oracle keyed by
the request URL. -/
def auction_process_date (market_area auction sub_modality : String)
    (dateStr : Int → String) (fetch : String → AucPage) (date : Int) :
    Except ScanErr (List (Timestamp × Row4) × Bool) :=
  match auction_delivery_date sub_modality date with
  | Except.error e => Except.error e
  | Except.ok delivery_date =>
    fetch_auction_model (dateStr delivery_date)
      (fetch (auction_url market_area auction (dateStr date)
        (dateStr delivery_date) sub_modality))

/-- The per-date loop of `collect_auction_market_data`: frames are
concatenated in date order and no exception is caught. -/
def scan_dates_auction (market_area auction sub_modality : String)
    (dateStr : Int → String) (fetch : String → AucPage) :
    List Int → Except ScanErr (List (Timestamp × Row4))
  | [] => Except.ok []
  | d :: rest =>
    match auction_process_date market_area auction sub_modality dateStr fetch d with
    | Except.error e => Except.error e
    | Except.ok f =>
      match scan_dates_auction market_area auction sub_modality dateStr fetch rest with
      | Except.error e => Except.error e
      | Except.ok r => Except.ok (f.1 ++ r)

/-- One market area of `collect_auction_market_data` after the date loop
(lines 313-328): a non-empty accumulation is sorted by date and written
(`some rows`); an empty accumulation is logged (`NO AUCTION DATA ...`) and
produces no file (`none`), without error. -/
def collect_auction_one (market_area auction sub_modality : String)
    (dateStr : Int → String) (fetch : String → AucPage) (dates : List Int) :
    Except ScanErr (Option (List (Timestamp × Row4))) :=
  match scan_dates_auction market_area auction sub_modality dateStr fetch dates with
  | Except.error e => Except.error e
  | Except.ok df =>
    if df.isEmpty then Except.ok none
    else Except.ok (some (sort_by_date df))

/-- The market-area loop of `collect_auction_market_data` (line 293):
sequential, nothing caught. -/
def collect_auction_all (auction sub_modality : String) (dateStr : Int → String)
    (fetch : String → AucPage) (dates : List Int) :
    List String → Except ScanErr (List (Option (List (Timestamp × Row4))))
  | [] => Except.ok []
  | ma :: rest =>
    match collect_auction_one ma auction sub_modality dateStr fetch dates with
    | Except.error e => Except.error e
    | Except.ok f =>
      match collect_auction_all auction sub_modality dateStr fetch dates rest with
      | Except.error e => Except.error e
      | Except.ok r => Except.ok (f :: r)

/-- The trailing scan window of `__main__` (lines 334-335):
`end_date = today`, `start_date = end_date - 4 days`, and
`pd.date_range(start, end)` yields the 5 consecutive days ending today. -/
def scan_window (today : Int) : List Int :=
  (List.range 5).map (fun i : Nat => today - 4 + (i : Int))

/-! ## Column renaming -/

/-- The `name_map` of `fetch_spot_data` (lines 104-119). -/
def continuous_name_map : List (String × String) :=
  [("Low (€/MWh)", "low"), ("High (€/MWh)", "high"), ("Last (€/MWh)", "last"),
   ("Weight Avg. (€/MWh)", "weighted_avg"), ("ID Full (€/MWh)", "id_full"),
   ("ID1 (€/MWh)", "id1"), ("ID3 (€/MWh)", "id3"),
   ("Buy Volume (MWh)", "buy_volume"), ("Sell Volume (MWh)", "sell_volume"),
   ("Volume (MWh)", "total_volume")]

/-- The `name_map` of `fetch_auction_data` (lines 244-250). -/
def auction_name_map : List (String × String) :=
  [("Buy Volume (MWh)", "Buy_Volume"), ("Sell Volume (MWh)", "Sell_Volume"),
   ("Volume (MWh)", "Volume"), ("Price (€/MWh)", "Price")]

/-- `df.rename(columns=name_map)`: a recognized header is replaced by its
canonical name, any other column label passes through unchanged. -/
def rename_by (name_map : List (String × String)) (c : String) : String :=
  (List.lookup c name_map).getD c

/-- Column rename of the continuous path. -/
def rename_continuous (c : String) : String := rename_by continuous_name_map c

/-- Column rename of the auction path. -/
def rename_auction (c : String) : String := rename_by auction_name_map c

/-- The fixed source columns of the auction frame (line 190). -/
def auction_source_columns : List String :=
  ["Buy Volume (MWh)", "Sell Volume (MWh)", "Volume (MWh)", "Price (€/MWh)"]

/-- The column labels of the normalized auction output: `reset_index()`
prepends `date`, then the fixed source columns are renamed.  (No auction
column can be entirely NaN, since an uncoercible cell raises instead, so
`dropna(axis='columns', how='all')` drops nothing here.) -/
def auction_output_columns : List String :=
  "date" :: auction_source_columns.map rename_auction

/-- The four cell texts of one raw auction row, in column order. -/
def cells_of (r : Cell4) : List String := [r.1, r.2.1, r.2.2.1, r.2.2.2]

/-! ## Helper lemmas: strides, zipping, axes -/

theorem everyNthAux_getElem? (k : Nat) (hk : 0 < k) (l : List α) :
    ∀ j i : Nat, (everyNthAux k j l)[i]? = l[j + k * i]? := by
  induction l with
  | nil => intro j i; simp [everyNthAux]
  | cons c cs ih =>
    intro j i
    cases j with
    | zero =>
      cases i with
      | zero => simp [everyNthAux]
      | succ i =>
        have hstep : everyNthAux k 0 (c :: cs) = c :: everyNthAux k (k - 1) cs := rfl
        rw [hstep, List.getElem?_cons_succ, ih]
        have h3 : k * (i + 1) = k * i + k := by ring
        have h2 : 0 + k * (i + 1) = (k - 1 + k * i) + 1 := by omega
        rw [h2, List.getElem?_cons_succ]
    | succ j =>
      have hstep : everyNthAux k (j + 1) (c :: cs) = everyNthAux k j cs := rfl
      rw [hstep, ih]
      have h2 : (j + 1) + k * i = (j + k * i) + 1 := by omega
      rw [h2, List.getElem?_cons_succ]

theorem everyNthAux_length (k : Nat) (hk : 0 < k) (l : List α) :
    ∀ j : Nat, (everyNthAux k j l).length = (l.length - j + (k - 1)) / k := by
  induction l with
  | nil =>
    intro j
    have h1 : ([] : List α).length - j + (k - 1) = k - 1 := by simp
    simp [everyNthAux, h1, Nat.div_eq_of_lt (show k - 1 < k by omega)]
  | cons c cs ih =>
    intro j
    cases j with
    | zero =>
      have hstep : everyNthAux k 0 (c :: cs) = c :: everyNthAux k (k - 1) cs := rfl
      rw [hstep, List.length_cons, List.length_cons, ih (k - 1)]
      have h2 : cs.length + 1 - 0 + (k - 1) = cs.length + k := by omega
      rw [h2, Nat.add_div_right _ hk]
      rcases le_or_lt (k - 1) cs.length with h | h
      · rw [Nat.sub_add_cancel h]
      · have h3 : cs.length - (k - 1) + (k - 1) = k - 1 := by omega
        rw [h3, Nat.div_eq_of_lt (by omega), Nat.div_eq_of_lt (by omega)]
    | succ j =>
      have hstep : everyNthAux k (j + 1) (c :: cs) = everyNthAux k j cs := rfl
      rw [hstep, ih j, List.length_cons]
      congr 1
      omega

theorem everyNth_getElem? (k : Nat) (hk : 0 < k) (l : List α) (i : Nat) :
    (everyNth k l)[i]? = l[k * i]? := by
  have h := everyNthAux_getElem? k hk l 0 i
  simpa [everyNth] using h

theorem everyNth_length (k : Nat) (hk : 0 < k) (l : List α) :
    (everyNth k l).length = (l.length + (k - 1)) / k := by
  have h := everyNthAux_length k hk l 0
  simpa [everyNth] using h

theorem zip_getElem? (as : List α) (bs : List β) :
    ∀ i : Nat, (as.zip bs)[i]? = as[i]?.bind (fun a => bs[i]?.map (Prod.mk a)) := by
  induction as generalizing bs with
  | nil => intro i; simp
  | cons a as ih =>
    intro i
    cases bs with
    | nil =>
      cases i with
      | zero => simp
      | succ i => simp
    | cons b bs =>
      cases i with
      | zero => simp
      | succ i => simp [ih]

theorem zip_getElem?_fst (as : List α) (bs : List β) (i : Nat)
    (h1 : i < as.length) (h2 : i < bs.length) :
    ((as.zip bs)[i]?).map Prod.fst = as[i]? := by
  rw [zip_getElem?, List.getElem?_eq_getElem h1, List.getElem?_eq_getElem h2]
  simp

theorem zip_getElem?_snd (as : List α) (bs : List β) (i : Nat)
    (h1 : i < as.length) :
    ((as.zip bs)[i]?).map Prod.snd = bs[i]? := by
  rw [zip_getElem?, List.getElem?_eq_getElem h1]
  cases h : bs[i]? <;> simp [h]

theorem map_pair_of_map_eq {l : List α} {g : α → Nat} {ms : List Nat}
    (h : l.map g = ms) (d : β) :
    l.map (fun s => (d, g s)) = ms.map (fun m => (d, m)) := by
  rw [← h, List.map_map]
  rfl

theorem hour0_minutes :
    index_hours.map (fun s => parse_hour s * 60) =
      (List.range 24).map (fun i => i * 60) := by decide

theorem hour12_minutes :
    (hour_strings 12).map (fun s => parse_hour s * 60) =
      (List.range 12).map (fun i => (12 + i) * 60) := by decide

theorem min30_minutes :
    index_30min.map time_of_hm = (List.range 48).map (fun i => 30 * i) := by decide

theorem min15_minutes :
    index_15min.map time_of_hm = (List.range 96).map (fun i => 15 * i) := by decide

theorem get_time_axis_hour0_eq (d : String) :
    get_time_axis_hour d 0 = (List.range 24).map (fun i => (d, i * 60)) := by
  calc get_time_axis_hour d 0
      = index_hours.map (fun s => (d, parse_hour s * 60)) := rfl
    _ = ((List.range 24).map (fun i => i * 60)).map (fun m => (d, m)) :=
        map_pair_of_map_eq hour0_minutes d
    _ = (List.range 24).map (fun i => (d, i * 60)) := by rw [List.map_map]; rfl

theorem get_time_axis_hour12_eq (d : String) :
    get_time_axis_hour d 12 = (List.range 12).map (fun i => (d, (12 + i) * 60)) := by
  calc get_time_axis_hour d 12
      = (hour_strings 12).map (fun s => (d, parse_hour s * 60)) := rfl
    _ = ((List.range 12).map (fun i => (12 + i) * 60)).map (fun m => (d, m)) :=
        map_pair_of_map_eq hour12_minutes d
    _ = (List.range 12).map (fun i => (d, (12 + i) * 60)) := by rw [List.map_map]; rfl

theorem get_time_axis_30min_eq (d : String) :
    get_time_axis_30min d = (List.range 48).map (fun i => (d, 30 * i)) := by
  calc get_time_axis_30min d
      = index_30min.map (fun s => (d, time_of_hm s)) := rfl
    _ = ((List.range 48).map (fun i => 30 * i)).map (fun m => (d, m)) :=
        map_pair_of_map_eq min30_minutes d
    _ = (List.range 48).map (fun i => (d, 30 * i)) := by rw [List.map_map]; rfl

theorem get_time_axis_15min_eq (d : String) :
    get_time_axis_15min d = (List.range 96).map (fun i => (d, 15 * i)) := by
  calc get_time_axis_15min d
      = index_15min.map (fun s => (d, time_of_hm s)) := rfl
    _ = ((List.range 96).map (fun i => 15 * i)).map (fun m => (d, m)) :=
        map_pair_of_map_eq min15_minutes d
    _ = (List.range 96).map (fun i => (d, 15 * i)) := by rw [List.map_map]; rfl

theorem length_axis_hour0 (d : String) : (get_time_axis_hour d 0).length = 24 := by
  rw [get_time_axis_hour0_eq]; simp

theorem length_axis_hour12 (d : String) : (get_time_axis_hour d 12).length = 12 := by
  rw [get_time_axis_hour12_eq]; simp

theorem length_axis_30min (d : String) : (get_time_axis_30min d).length = 48 := by
  rw [get_time_axis_30min_eq]; simp

theorem length_axis_15min (d : String) : (get_time_axis_15min d).length = 96 := by
  rw [get_time_axis_15min_eq]; simp

theorem axis_hour0_getElem? (d : String) (i : Nat) (hi : i < 24) :
    (get_time_axis_hour d 0)[i]? = some (d, i * 60) := by
  rw [get_time_axis_hour0_eq, List.getElem?_map, List.getElem?_range hi]
  rfl

theorem axis_hour12_getElem? (d : String) (i : Nat) (hi : i < 12) :
    (get_time_axis_hour d 12)[i]? = some (d, (12 + i) * 60) := by
  rw [get_time_axis_hour12_eq, List.getElem?_map, List.getElem?_range hi]
  rfl

theorem axis_30min_getElem? (d : String) (i : Nat) (hi : i < 48) :
    (get_time_axis_30min d)[i]? = some (d, 30 * i) := by
  rw [get_time_axis_30min_eq, List.getElem?_map, List.getElem?_range hi]
  rfl

theorem axis_15min_getElem? (d : String) (i : Nat) (hi : i < 96) :
    (get_time_axis_15min d)[i]? = some (d, 15 * i) := by
  rw [get_time_axis_15min_eq, List.getElem?_map, List.getElem?_range hi]
  rfl

theorem set_index_ok (axis : List Timestamp) (rows : List α)
    (h : axis.length = rows.length) :
    set_index axis rows = Except.ok (axis.zip rows) := by
  simp [set_index, h]

/-! ## Claim C6 -/

/-- **C6.** For every calendar date `d`, `get_time_axis_30min d` is exactly the
48 timestamps `d 00:00, d 00:30, …, d 23:30` in chronological order (even
though the labels are generated in hour-then-half-hour order and only then
sorted), strictly increasing and gap-free at 30-minute spacing; and
`get_time_axis_15min d` is exactly the 96 timestamps `d 00:00 … d 23:45` at
15-minute spacing. -/
theorem subhourly_axes_spec (d : String) :
    (get_time_axis_30min d = (List.range 48).map (fun i => (d, 30 * i))) ∧
    ((get_time_axis_30min d).length = 48) ∧
    (List.Chain' (fun a b : Timestamp => b.2 = a.2 + 30) (get_time_axis_30min d)) ∧
    (get_time_axis_15min d = (List.range 96).map (fun i => (d, 15 * i))) ∧
    ((get_time_axis_15min d).length = 96) ∧
    (List.Chain' (fun a b : Timestamp => b.2 = a.2 + 15) (get_time_axis_15min d)) := by
  refine ⟨get_time_axis_30min_eq d, length_axis_30min d, ?_,
    get_time_axis_15min_eq d, length_axis_15min d, ?_⟩
  · rw [get_time_axis_30min_eq, List.chain'_map]
    show List.Chain' (fun a b : Nat => 30 * b = 30 * a + 30) (List.range 48)
    rw [show (48 : Nat) = 47 + 1 from rfl, List.chain'_range_succ]
    intro m hm
    omega
  · rw [get_time_axis_15min_eq, List.chain'_map]
    show List.Chain' (fun a b : Nat => 15 * b = 15 * a + 15) (List.range 96)
    rw [show (96 : Nat) = 95 + 1 from rfl, List.chain'_range_succ]
    intro m hm
    omega

/-! ## Claim C2 -/

/-- **C2.** The continuous shape dispatch applies exactly the documented
descriptor: 168 rows → every 7th row (24 rows, no warning); 72 → every 3rd
row; 74 → every 3rd row truncated to the first 24 with the irregularity
warning; 24 → all rows; 172 and 174 → every 7th row truncated to the first
24 with the warning; every other row count of a found table fails with the
unsupported-shape error carrying the row count. -/
theorem continuous_shape_classifier_spec (d : String) (rows : List α) :
    (rows.length = 168 → ∃ out, fetch_spot_shape d rows = Except.ok (out, false) ∧
      out.length = 24 ∧ ∀ i < 24, (out[i]?).map Prod.snd = rows[7 * i]?) ∧
    (rows.length = 72 → ∃ out, fetch_spot_shape d rows = Except.ok (out, false) ∧
      out.length = 24 ∧ ∀ i < 24, (out[i]?).map Prod.snd = rows[3 * i]?) ∧
    (rows.length = 74 → ∃ out, fetch_spot_shape d rows = Except.ok (out, true) ∧
      out.length = 24 ∧ ∀ i < 24, (out[i]?).map Prod.snd = rows[3 * i]?) ∧
    (rows.length = 24 → ∃ out, fetch_spot_shape d rows = Except.ok (out, false) ∧
      out.length = 24 ∧ ∀ i < 24, (out[i]?).map Prod.snd = rows[i]?) ∧
    (rows.length = 172 ∨ rows.length = 174 →
      ∃ out, fetch_spot_shape d rows = Except.ok (out, true) ∧
      out.length = 24 ∧ ∀ i < 24, (out[i]?).map Prod.snd = rows[7 * i]?) ∧
    (rows.length ∉ ([168, 72, 74, 24, 172, 174] : List Nat) →
      fetch_spot_shape d rows = Except.error (ScanErr.unsupportedShape rows.length)) := by
  refine ⟨?_, ?_, ?_, ?_, ?_, ?_⟩
  · intro h
    have hlim : (everyNth 7 rows).length = 24 := by
      rw [everyNth_length 7 (by norm_num), h]
    refine ⟨(get_time_axis_hour d 0).zip (everyNth 7 rows), ?_, ?_, ?_⟩
    · simp [fetch_spot_shape, h, set_index, length_axis_hour0, hlim]
    · rw [List.length_zip, length_axis_hour0, hlim]; decide
    · intro i hi
      rw [zip_getElem?_snd _ _ _ (by rw [length_axis_hour0]; omega),
        everyNth_getElem? 7 (by norm_num)]
  · intro h
    have hlim : (everyNth 3 rows).length = 24 := by
      rw [everyNth_length 3 (by norm_num), h]
    refine ⟨(get_time_axis_hour d 0).zip (everyNth 3 rows), ?_, ?_, ?_⟩
    · simp [fetch_spot_shape, h, set_index, length_axis_hour0, hlim]
    · rw [List.length_zip, length_axis_hour0, hlim]; decide
    · intro i hi
      rw [zip_getElem?_snd _ _ _ (by rw [length_axis_hour0]; omega),
        everyNth_getElem? 3 (by norm_num)]
  · intro h
    have hlim : ((everyNth 3 rows).take 24).length = 24 := by
      rw [List.length_take, everyNth_length 3 (by norm_num), h]; decide
    refine ⟨(get_time_axis_hour d 0).zip ((everyNth 3 rows).take 24), ?_, ?_, ?_⟩
    · simp [fetch_spot_shape, h, set_index, length_axis_hour0, hlim]
    · rw [List.length_zip, length_axis_hour0, hlim]; decide
    · intro i hi
      rw [zip_getElem?_snd _ _ _ (by rw [length_axis_hour0]; omega),
        List.getElem?_take, if_pos hi, everyNth_getElem? 3 (by norm_num)]
  · intro h
    refine ⟨(get_time_axis_hour d 0).zip rows, ?_, ?_, ?_⟩
    · simp [fetch_spot_shape, h, set_index, length_axis_hour0]
    · rw [List.length_zip, length_axis_hour0, h]; decide
    · intro i hi
      rw [zip_getElem?_snd _ _ _ (by rw [length_axis_hour0]; omega)]
  · intro h
    have hlim : ((everyNth 7 rows).take 24).length = 24 := by
      rcases h with h | h <;>
        · rw [List.length_take, everyNth_length 7 (by norm_num), h]; decide
    have hne : rows.length ≠ 168 ∧ rows.length ≠ 72 ∧ rows.length ≠ 74 ∧
        rows.length ≠ 24 := by rcases h with h | h <;> omega
    refine ⟨(get_time_axis_hour d 0).zip ((everyNth 7 rows).take 24), ?_, ?_, ?_⟩
    · simp [fetch_spot_shape, hne.1, hne.2.1, hne.2.2.1, hne.2.2.2, h,
        set_index, length_axis_hour0, hlim]
    · rw [List.length_zip, length_axis_hour0, hlim]; decide
    · intro i hi
      rw [zip_getElem?_snd _ _ _ (by rw [length_axis_hour0]; omega),
        List.getElem?_take, if_pos hi, everyNth_getElem? 7 (by norm_num)]
  · intro h
    simp only [List.mem_cons, List.not_mem_nil, or_false, not_or] at h
    simp [fetch_spot_shape, h.1, h.2.1, h.2.2.1, h.2.2.2.1, h.2.2.2.2.1,
      h.2.2.2.2.2]

/-- Witness for C2: a concrete 168-row grid is accepted with no warning, and
a concrete 13-row grid is rejected. -/
theorem continuous_shape_classifier_spec_witness :
    (∃ out, fetch_spot_shape "2024-09-01" (List.range 168) = Except.ok (out, false) ∧
      out.length = 24 ∧ ∀ i < 24, (out[i]?).map Prod.snd = (List.range 168)[7 * i]?) ∧
    fetch_spot_shape "2024-09-01" (List.range 13) =
      Except.error (ScanErr.unsupportedShape (List.range 13).length) :=
  ⟨(continuous_shape_classifier_spec "2024-09-01" (List.range 168)).1 (by simp),
   (continuous_shape_classifier_spec "2024-09-01" (List.range 13)).2.2.2.2.2
     (by decide)⟩

/-! ## Claim C4 -/

/-- **C4.** For every delivery date `d`, a 168-row continuous grid normalizes
to exactly 24 rows whose timestamp at position `i` is position `i` of the
full-day hourly axis (`d` 00:00 … 23:00), and a 74-row continuous grid
normalizes to exactly 24 rows (stride 3, then truncation to 24) with the
irregularity warning and the same positional timestamps. -/
theorem continuous_normalizer_axis_spec (d : String) (rows : List α) :
    (rows.length = 168 → ∃ out, fetch_spot_shape d rows = Except.ok (out, false) ∧
      out.length = 24 ∧ out.map Prod.fst = get_time_axis_hour d 0 ∧
      ∀ i < 24, (out[i]?).map Prod.fst = (get_time_axis_hour d 0)[i]? ∧
        (out[i]?).map Prod.fst = some (d, i * 60)) ∧
    (rows.length = 74 → ∃ out, fetch_spot_shape d rows = Except.ok (out, true) ∧
      out.length = 24 ∧ out.map Prod.fst = get_time_axis_hour d 0 ∧
      ∀ i < 24, (out[i]?).map Prod.fst = (get_time_axis_hour d 0)[i]? ∧
        (out[i]?).map Prod.fst = some (d, i * 60)) := by
  constructor
  · intro h
    have hlim : (everyNth 7 rows).length = 24 := by
      rw [everyNth_length 7 (by norm_num), h]
    refine ⟨(get_time_axis_hour d 0).zip (everyNth 7 rows), ?_, ?_, ?_, ?_⟩
    · simp [fetch_spot_shape, h, set_index, length_axis_hour0, hlim]
    · rw [List.length_zip, length_axis_hour0, hlim]; decide
    · exact List.map_fst_zip _ _ (by rw [length_axis_hour0, hlim])
    · intro i hi
      have hfst := zip_getElem?_fst (get_time_axis_hour d 0) (everyNth 7 rows) i
        (by rw [length_axis_hour0]; omega) (by rw [hlim]; omega)
      exact ⟨hfst, by rw [hfst, axis_hour0_getElem? d i hi]⟩
  · intro h
    have hlim : ((everyNth 3 rows).take 24).length = 24 := by
      rw [List.length_take, everyNth_length 3 (by norm_num), h]; decide
    refine ⟨(get_time_axis_hour d 0).zip ((everyNth 3 rows).take 24), ?_, ?_, ?_, ?_⟩
    · simp [fetch_spot_shape, h, set_index, length_axis_hour0, hlim]
    · rw [List.length_zip, length_axis_hour0, hlim]; decide
    · exact List.map_fst_zip _ _ (by rw [length_axis_hour0, hlim])
    · intro i hi
      have hfst := zip_getElem?_fst (get_time_axis_hour d 0) ((everyNth 3 rows).take 24) i
        (by rw [length_axis_hour0]; omega) (by rw [hlim]; omega)
      exact ⟨hfst, by rw [hfst, axis_hour0_getElem? d i hi]⟩

/-- Witness for C4 at concrete 168- and 74-row grids. -/
theorem continuous_normalizer_axis_spec_witness :
    (∃ out, fetch_spot_shape "2024-03-31" (List.range 168) = Except.ok (out, false) ∧
      out.length = 24 ∧ out.map Prod.fst = get_time_axis_hour "2024-03-31" 0 ∧
      ∀ i < 24, (out[i]?).map Prod.fst = (get_time_axis_hour "2024-03-31" 0)[i]? ∧
        (out[i]?).map Prod.fst = some ("2024-03-31", i * 60)) ∧
    (∃ out, fetch_spot_shape "2024-10-27" (List.range 74) = Except.ok (out, true) ∧
      out.length = 24 ∧ out.map Prod.fst = get_time_axis_hour "2024-10-27" 0 ∧
      ∀ i < 24, (out[i]?).map Prod.fst = (get_time_axis_hour "2024-10-27" 0)[i]? ∧
        (out[i]?).map Prod.fst = some ("2024-10-27", i * 60)) :=
  ⟨(continuous_normalizer_axis_spec "2024-03-31" (List.range 168)).1 (by simp),
   (continuous_normalizer_axis_spec "2024-10-27" (List.range 74)).2 (by simp)⟩

/-! ## Claim C3 -/

/-- **C3.** The auction shape dispatch, keyed on the row count of the coerced
frame, applies exactly the documented mapping: 12 rows → hourly axis
restricted to the half day 12:00…23:00; 24 → full hourly axis; 48 →
half-hourly axis; 50 → first 48 rows then half-hourly axis with a warning;
96 → quarter-hourly axis; 100 → first 96 rows then quarter-hourly axis with
a warning; zero extracted rows yields the empty result without warning and
without error; every other row count fails with the unsupported-shape
error. -/
theorem auction_shape_classifier_spec (d : String) (df : List Row4) :
    (df.length = 0 → fetch_auction_shape d df = Except.ok ([], false)) ∧
    (df.length = 12 → ∃ out, fetch_auction_shape d df = Except.ok (out, false) ∧
      out.map Prod.snd = df ∧
      ∀ i < 12, (out[i]?).map Prod.fst = some (d, (12 + i) * 60)) ∧
    (df.length = 24 → ∃ out, fetch_auction_shape d df = Except.ok (out, false) ∧
      out.map Prod.snd = df ∧
      ∀ i < 24, (out[i]?).map Prod.fst = some (d, i * 60)) ∧
    (df.length = 48 → ∃ out, fetch_auction_shape d df = Except.ok (out, false) ∧
      out.map Prod.snd = df ∧
      ∀ i < 48, (out[i]?).map Prod.fst = some (d, 30 * i)) ∧
    (df.length = 50 → ∃ out, fetch_auction_shape d df = Except.ok (out, true) ∧
      out.map Prod.snd = df.take 48 ∧
      ∀ i < 48, (out[i]?).map Prod.fst = some (d, 30 * i)) ∧
    (df.length = 96 → ∃ out, fetch_auction_shape d df = Except.ok (out, false) ∧
      out.map Prod.snd = df ∧
      ∀ i < 96, (out[i]?).map Prod.fst = some (d, 15 * i)) ∧
    (df.length = 100 → ∃ out, fetch_auction_shape d df = Except.ok (out, true) ∧
      out.map Prod.snd = df.take 96 ∧
      ∀ i < 96, (out[i]?).map Prod.fst = some (d, 15 * i)) ∧
    (df.length ∉ ([0, 12, 24, 48, 50, 96, 100] : List Nat) →
      fetch_auction_shape d df = Except.error (ScanErr.unsupportedShape df.length)) := by
  refine ⟨?_, ?_, ?_, ?_, ?_, ?_, ?_, ?_⟩
  · intro h
    simp [fetch_auction_shape, h]
  · intro h
    refine ⟨(get_time_axis_hour d 12).zip df, ?_, ?_, ?_⟩
    · simp [fetch_auction_shape, h, set_index, length_axis_hour12]
    · exact List.map_snd_zip _ _ (by rw [length_axis_hour12, h])
    · intro i hi
      rw [zip_getElem?_fst _ _ _ (by rw [length_axis_hour12]; omega) (by omega),
        axis_hour12_getElem? d i hi]
  · intro h
    refine ⟨(get_time_axis_hour d 0).zip df, ?_, ?_, ?_⟩
    · simp [fetch_auction_shape, h, set_index, length_axis_hour0]
    · exact List.map_snd_zip _ _ (by rw [length_axis_hour0, h])
    · intro i hi
      rw [zip_getElem?_fst _ _ _ (by rw [length_axis_hour0]; omega) (by omega),
        axis_hour0_getElem? d i hi]
  · intro h
    refine ⟨(get_time_axis_30min d).zip df, ?_, ?_, ?_⟩
    · simp [fetch_auction_shape, h, set_index, length_axis_30min]
    · exact List.map_snd_zip _ _ (by rw [length_axis_30min, h])
    · intro i hi
      rw [zip_getElem?_fst _ _ _ (by rw [length_axis_30min]; omega) (by omega),
        axis_30min_getElem? d i hi]
  · intro h
    have htake : (df.take 48).length = 48 := by rw [List.length_take, h]; decide
    refine ⟨(get_time_axis_30min d).zip (df.take 48), ?_, ?_, ?_⟩
    · simp [fetch_auction_shape, h, set_index, length_axis_30min, htake]
    · exact List.map_snd_zip _ _ (by rw [length_axis_30min, htake])
    · intro i hi
      rw [zip_getElem?_fst _ _ _ (by rw [length_axis_30min]; omega)
        (by rw [htake]; omega), axis_30min_getElem? d i hi]
  · intro h
    refine ⟨(get_time_axis_15min d).zip df, ?_, ?_, ?_⟩
    · simp [fetch_auction_shape, h, set_index, length_axis_15min]
    · exact List.map_snd_zip _ _ (by rw [length_axis_15min, h])
    · intro i hi
      rw [zip_getElem?_fst _ _ _ (by rw [length_axis_15min]; omega) (by omega),
        axis_15min_getElem? d i hi]
  · intro h
    have htake : (df.take 96).length = 96 := by rw [List.length_take, h]; decide
    refine ⟨(get_time_axis_15min d).zip (df.take 96), ?_, ?_, ?_⟩
    · simp [fetch_auction_shape, h, set_index, length_axis_15min, htake]
    · exact List.map_snd_zip _ _ (by rw [length_axis_15min, htake])
    · intro i hi
      rw [zip_getElem?_fst _ _ _ (by rw [length_axis_15min]; omega)
        (by rw [htake]; omega), axis_15min_getElem? d i hi]
  · intro h
    simp only [List.mem_cons, List.not_mem_nil, or_false, not_or] at h
    simp [fetch_auction_shape, h.1, h.2.1, h.2.2.1, h.2.2.2.1, h.2.2.2.2.1,
      h.2.2.2.2.2.1, h.2.2.2.2.2.2]

/-- Witness for C3: a concrete 12-row half-day frame is accepted, and a
concrete 13-row frame is rejected. -/
theorem auction_shape_classifier_spec_witness :
    (∃ out, fetch_auction_shape "2024-09-01" (List.replicate 12 ((0 : ℚ), (0 : ℚ), (0 : ℚ), (0 : ℚ))) =
        Except.ok (out, false) ∧
      out.map Prod.snd = List.replicate 12 ((0 : ℚ), (0 : ℚ), (0 : ℚ), (0 : ℚ)) ∧
      ∀ i < 12, (out[i]?).map Prod.fst = some ("2024-09-01", (12 + i) * 60)) ∧
    fetch_auction_shape "2024-09-01" (List.replicate 13 ((0 : ℚ), (0 : ℚ), (0 : ℚ), (0 : ℚ))) =
      Except.error (ScanErr.unsupportedShape
        (List.replicate 13 ((0 : ℚ), (0 : ℚ), (0 : ℚ), (0 : ℚ))).length) :=
  ⟨(auction_shape_classifier_spec "2024-09-01" _).2.1 (by simp),
   (auction_shape_classifier_spec "2024-09-01" _).2.2.2.2.2.2.2 (by simp)⟩

/-! ## Claim C10 -/

theorem numeric_coercion_error_shape (c : String) (e : ScanErr)
    (h : numeric_coercion c = Except.error e) : ∃ s, e = ScanErr.numberFormat s := by
  cases hp : pyFloat? (removeCommas (py_strip c)) with
  | none =>
    simp only [numeric_coercion, hp] at h
    exact ⟨_, ((Except.error.injEq _ _).mp h).symm⟩
  | some q =>
    simp only [numeric_coercion, hp] at h
    cases h

theorem coerce_column_error_of_mem (cells : List String)
    (h : ∃ c ∈ cells, ∃ e, numeric_coercion c = Except.error e) :
    ∃ s, coerce_column cells = Except.error (ScanErr.numberFormat s) := by
  induction cells with
  | nil => simp at h
  | cons c cs ih =>
    rcases h with ⟨c0, hc0, e, he⟩
    cases hc : numeric_coercion c with
    | error e1 =>
      obtain ⟨s, hs⟩ := numeric_coercion_error_shape c e1 hc
      exact ⟨s, by simp [coerce_column, hc, hs]⟩
    | ok q =>
      rcases List.mem_cons.mp hc0 with rfl | hmem
      · rw [hc] at he; cases he
      · obtain ⟨s, hs⟩ := ih ⟨c0, hmem, e, he⟩
        exact ⟨s, by simp [coerce_column, hc, hs]⟩

theorem coerce_column_error_shape_of {cells : List String} {e : ScanErr}
    (h : coerce_column cells = Except.error e) : ∃ s, e = ScanErr.numberFormat s := by
  induction cells with
  | nil => simp [coerce_column] at h
  | cons c cs ih =>
    unfold coerce_column at h
    cases hc : numeric_coercion c with
    | error e1 =>
      rw [hc] at h
      simp only [] at h
      obtain rfl : e1 = e := (Except.error.injEq _ _).mp h
      exact numeric_coercion_error_shape c _ hc
    | ok q =>
      rw [hc] at h
      cases hcs : coerce_column cs with
      | error e2 =>
        rw [hcs] at h
        simp only [] at h
        obtain rfl : e2 = e := (Except.error.injEq _ _).mp h
        exact ih hcs
      | ok r =>
        rw [hcs] at h
        simp at h

theorem coerce_column_ok_all (cells : List String) (qs : List ℚ)
    (h : coerce_column cells = Except.ok qs) (c : String) (hc : c ∈ cells) :
    ∃ q, numeric_coercion c = Except.ok q := by
  induction cells generalizing qs with
  | nil => simp at hc
  | cons x xs ih =>
    unfold coerce_column at h
    cases hx : numeric_coercion x with
    | error e => rw [hx] at h; cases h
    | ok q =>
      rw [hx] at h
      cases hxs : coerce_column xs with
      | error e => rw [hxs] at h; cases h
      | ok r =>
        rcases List.mem_cons.mp hc with rfl | hmem
        · exact ⟨q, hx⟩
        · exact ih r hxs hmem

theorem coerce_frame_error_of_bad_cell (data : List Cell4)
    (h : ∃ r ∈ data, ∃ c ∈ cells_of r, ∃ e, numeric_coercion c = Except.error e) :
    ∃ s, coerce_frame data = Except.error (ScanErr.numberFormat s) := by
  rcases h with ⟨r, hr, c, hc, e, he⟩
  have hcol : c ∈ data.map (fun x => x.1) ∨ c ∈ data.map (fun x => x.2.1) ∨
      c ∈ data.map (fun x => x.2.2.1) ∨ c ∈ data.map (fun x => x.2.2.2) := by
    simp only [cells_of, List.mem_cons, List.not_mem_nil, or_false] at hc
    rcases hc with rfl | rfl | rfl | rfl
    · exact Or.inl (List.mem_map_of_mem _ hr)
    · exact Or.inr (Or.inl (List.mem_map_of_mem _ hr))
    · exact Or.inr (Or.inr (Or.inl (List.mem_map_of_mem _ hr)))
    · exact Or.inr (Or.inr (Or.inr (List.mem_map_of_mem _ hr)))
  cases h1 : coerce_column (data.map (fun x => x.1)) with
  | error e1 =>
    obtain ⟨s, hs⟩ := coerce_column_error_shape_of h1
    exact ⟨s, by simp [coerce_frame, h1, hs]⟩
  | ok b =>
    cases h2 : coerce_column (data.map (fun x => x.2.1)) with
    | error e2 =>
      obtain ⟨s, hs⟩ := coerce_column_error_shape_of h2
      exact ⟨s, by simp [coerce_frame, h1, h2, hs]⟩
    | ok sv =>
      cases h3 : coerce_column (data.map (fun x => x.2.2.1)) with
      | error e3 =>
        obtain ⟨s, hs⟩ := coerce_column_error_shape_of h3
        exact ⟨s, by simp [coerce_frame, h1, h2, h3, hs]⟩
      | ok v =>
        cases h4 : coerce_column (data.map (fun x => x.2.2.2)) with
        | error e4 =>
          obtain ⟨s, hs⟩ := coerce_column_error_shape_of h4
          exact ⟨s, by simp [coerce_frame, h1, h2, h3, h4, hs]⟩
        | ok p =>
          exfalso
          rcases hcol with hm | hm | hm | hm
          · obtain ⟨q, hq⟩ := coerce_column_ok_all _ _ h1 c hm
            rw [hq] at he; cases he
          · obtain ⟨q, hq⟩ := coerce_column_ok_all _ _ h2 c hm
            rw [hq] at he; cases he
          · obtain ⟨q, hq⟩ := coerce_column_ok_all _ _ h3 c hm
            rw [hq] at he; cases he
          · obtain ⟨q, hq⟩ := coerce_column_ok_all _ _ h4 c hm
            rw [hq] at he; cases he

/-- **C10.** In the auction path, all four columns of the raw grid are
coerced before the row count is examined: whenever any cell of the grid
fails numeric coercion — wherever it sits, including the surplus rows of a
50- or 100-row clock-change table that the shape step would later discard —
the whole date fails with the number-format error, and neither the shape
dispatch nor the empty-result check is reached (the result is never an
unsupported-shape error nor a success). -/
theorem auction_coercion_before_shape (d : String) (data : List Cell4)
    (h : ∃ r ∈ data, ∃ c ∈ cells_of r, ∃ e, numeric_coercion c = Except.error e) :
    ∃ s, fetch_auction_model d (AucPage.rows data) =
      Except.error (ScanErr.numberFormat s) := by
  obtain ⟨s, hs⟩ := coerce_frame_error_of_bad_cell data h
  exact ⟨s, by simp [fetch_auction_model, hs]⟩

/-- Witness for C10: a 50-row grid whose only malformed cell sits in row 49,
one of the two surplus rows that the 50-row branch would truncate away. -/
theorem auction_coercion_before_shape_witness :
    ∃ s, fetch_auction_model "2024-10-27"
      (AucPage.rows (List.replicate 49 ("1", "1", "1", "1") ++ [("abc", "1", "1", "1")])) =
      Except.error (ScanErr.numberFormat s) :=
  auction_coercion_before_shape "2024-10-27" _
    ⟨("abc", "1", "1", "1"),
     List.mem_append_right _ (List.mem_singleton.mpr rfl),
     "abc", by simp [cells_of], ScanErr.numberFormat "abc", rfl⟩

/-! ## Claim C5 -/

/-- Counterexample for C5 as stated: the claim says an input that is empty
after stripping yields a not-a-number sentinel *without raising an error*,
but the code's `astype(float)` raises on the empty string, so the coercion
of `""` is an error, not a non-error NaN result. -/
theorem numeric_coercion_empty_cex :
    numeric_coercion "" = Except.error (ScanErr.numberFormat "") := rfl

/-- **C5 (amended).** `numeric_coercion` strips surrounding whitespace and
removes comma thousands-separators, then parses the remainder as a decimal
number with dot as decimal point: `" 2,914.6 "` parses to `2914.6`; every
input that is empty after stripping fails with a number-format error (the
code raises here; it does not return a NaN sentinel); malformed remaining
text such as `"abc"` fails; and embedded spaces are not removed, so
`"2 914.6"` also fails. -/
theorem numeric_coercion_spec :
    (numeric_coercion " 2,914.6 " = Except.ok (2914.6 : ℚ)) ∧
    (∀ s : String, py_strip s = "" →
      numeric_coercion s = Except.error (ScanErr.numberFormat "")) ∧
    (numeric_coercion "abc" = Except.error (ScanErr.numberFormat "abc")) ∧
    (numeric_coercion "2 914.6" = Except.error (ScanErr.numberFormat "2 914.6")) := by
  refine ⟨?_, ?_, rfl, rfl⟩
  · have h2 : (((2914 : ℕ) : ℚ) + ((6 : ℕ) : ℚ) / (10 : ℚ) ^ (1 : ℕ)) =
        (2914.6 : ℚ) := by norm_num
    calc numeric_coercion " 2,914.6 "
        = Except.ok (((2914 : ℕ) : ℚ) + ((6 : ℕ) : ℚ) / (10 : ℚ) ^ (1 : ℕ)) := rfl
      _ = Except.ok (2914.6 : ℚ) := by rw [h2]
  · intro s h
    unfold numeric_coercion
    rw [h]
    rfl

/-- Witness for C5's universally quantified empty-input clause, at the
concrete all-whitespace cell `"  "`. -/
theorem numeric_coercion_spec_witness :
    py_strip "  " = "" ∧
    numeric_coercion "  " = Except.error (ScanErr.numberFormat "") :=
  ⟨rfl, numeric_coercion_spec.2.1 "  " rfl⟩

/-! ## Claim C1 -/

theorem scan_dates_continuous_error (entries : List (String × SpotPage α))
    (h : ∃ p ∈ entries, ∃ e, fetch_spot_model p.1 p.2 = Except.error e) :
    ∃ e, scan_dates_continuous entries = Except.error e := by
  induction entries with
  | nil => simp at h
  | cons q rest ih =>
    rcases h with ⟨p, hp, e, he⟩
    cases hq : fetch_spot_model q.1 q.2 with
    | error e1 => exact ⟨e1, by simp [scan_dates_continuous, hq]⟩
    | ok f =>
      rcases List.mem_cons.mp hp with rfl | hmem
      · rw [hq] at he; cases he
      · obtain ⟨e2, he2⟩ := ih ⟨p, hmem, e, he⟩
        exact ⟨e2, by simp [scan_dates_continuous, hq, he2]⟩

theorem collect_continuous_one_error (entries : List (String × SpotPage α))
    (h : ∃ p ∈ entries, ∃ e, fetch_spot_model p.1 p.2 = Except.error e) :
    ∃ e, collect_continuous_one entries = Except.error e := by
  obtain ⟨e, he⟩ := scan_dates_continuous_error entries h
  exact ⟨e, by simp [collect_continuous_one, he]⟩

theorem collect_continuous_all_error (areas : List (List (String × SpotPage α)))
    (h : ∃ a ∈ areas, ∃ p ∈ a, ∃ e, fetch_spot_model p.1 p.2 = Except.error e) :
    ∃ e, collect_continuous_all areas = Except.error e := by
  induction areas with
  | nil => simp at h
  | cons a rest ih =>
    rcases h with ⟨a0, ha0, hbad⟩
    cases hq : collect_continuous_one a with
    | error e1 => exact ⟨e1, by simp [collect_continuous_all, hq]⟩
    | ok f =>
      rcases List.mem_cons.mp ha0 with rfl | hmem
      · obtain ⟨e, he⟩ := collect_continuous_one_error a0 hbad
        rw [hq] at he; cases he
      · obtain ⟨e2, he2⟩ := ih ⟨a0, hmem, hbad⟩
        exact ⟨e2, by simp [collect_continuous_all, hq, he2]⟩

theorem scan_dates_auction_error (market_area auction sub_modality : String)
    (dateStr : Int → String) (fetch : String → AucPage) (dates : List Int)
    (h : ∃ dd ∈ dates, ∃ e,
      auction_process_date market_area auction sub_modality dateStr fetch dd =
        Except.error e) :
    ∃ e, scan_dates_auction market_area auction sub_modality dateStr fetch dates =
      Except.error e := by
  induction dates with
  | nil => simp at h
  | cons q rest ih =>
    rcases h with ⟨dd, hdd, e, he⟩
    cases hq : auction_process_date market_area auction sub_modality dateStr fetch q with
    | error e1 => exact ⟨e1, by simp [scan_dates_auction, hq]⟩
    | ok f =>
      rcases List.mem_cons.mp hdd with rfl | hmem
      · rw [hq] at he; cases he
      · obtain ⟨e2, he2⟩ := ih ⟨dd, hmem, e, he⟩
        exact ⟨e2, by simp [scan_dates_auction, hq, he2]⟩

/-- Counterexample for C1 as stated: with a first date that succeeds (a
well-formed 24-row table) and a second date whose fetch fails, the claim
predicts a written output containing the first date's 24 rows; the code
instead lets the error propagate, the whole collection returns the fetch
error, and nothing is written. -/
theorem scan_loop_no_isolation_cex :
    collect_continuous_one
      [("2024-09-01", SpotPage.table (List.range 24)),
       ("2024-09-02", (SpotPage.fetchError : SpotPage Nat))] =
      Except.error ScanErr.fetchError := rfl

/-- **C1 (amended).** A `FetchError`, `UnsupportedShape` or
`NumberFormatError` raised while processing a single date is *not* caught
anywhere: in the continuous collector it aborts the date loop, the current
market area, and every subsequent market area (the whole run errors and no
output file is produced); in the auction collector it likewise aborts that
(market area, modality) pair's collection, which produces no output. -/
theorem scan_loop_error_propagates :
    (∀ (α : Type) (areas : List (List (String × SpotPage α))),
      (∃ a ∈ areas, ∃ p ∈ a, ∃ e, fetch_spot_model p.1 p.2 = Except.error e) →
      ∃ e, collect_continuous_all areas = Except.error e) ∧
    (∀ (market_area auction sub_modality : String) (dateStr : Int → String)
        (fetch : String → AucPage) (dates : List Int),
      (∃ dd ∈ dates, ∃ e,
        auction_process_date market_area auction sub_modality dateStr fetch dd =
          Except.error e) →
      ∃ e, collect_auction_one market_area auction sub_modality dateStr fetch dates =
        Except.error e) := by
  constructor
  · intro α areas h
    exact collect_continuous_all_error areas h
  · intro market_area auction sub_modality dateStr fetch dates h
    obtain ⟨e, he⟩ :=
      scan_dates_auction_error market_area auction sub_modality dateStr fetch dates h
    exact ⟨e, by simp [collect_auction_one, he]⟩

/-- Witness for C1 (amended): a concrete failing date in each collector. -/
theorem scan_loop_error_propagates_witness :
    (∃ e, collect_continuous_all
      [[("2024-09-01", (SpotPage.fetchError : SpotPage Nat))]] = Except.error e) ∧
    (∃ e, collect_auction_one "DE-LU" "MRC" "DayAhead" (fun _ => "2024-09-01")
      (fun _ => AucPage.fetchError) [0] = Except.error e) :=
  ⟨scan_loop_error_propagates.1 Nat _
    ⟨_, List.mem_singleton.mpr rfl, _, List.mem_singleton.mpr rfl,
     ScanErr.fetchError, rfl⟩,
   scan_loop_error_propagates.2 "DE-LU" "MRC" "DayAhead" _ _ _
    ⟨0, List.mem_singleton.mpr rfl, ScanErr.fetchError, rfl⟩⟩

/-! ## Claim C7 -/

/-- Counterexample for C7 as stated: in the continuous collector, when every
scanned date yields an empty frame (no table found), the claim predicts a
logged empty result and no error; the code instead calls
`sort_values(by='date')` on a concatenation that has no `date` column, which
raises a `KeyError`. -/
theorem empty_series_continuous_cex :
    collect_continuous_one
      ([("2024-09-01", SpotPage.noTable), ("2024-09-02", SpotPage.noTable)] :
        List (String × SpotPage Nat)) = Except.error ScanErr.keyErrorDate := rfl

/-- **C7 (amended).** Only the auction collector checks for an empty
concatenation: there, an empty result is logged and no output file is
produced, without error.  The continuous collector performs no such check
and fails with a `KeyError` on the missing `date` column whenever the
concatenation of all scanned dates' frames is empty. -/
theorem empty_series_policy :
    (∀ (market_area auction sub_modality : String) (dateStr : Int → String)
        (fetch : String → AucPage) (dates : List Int),
      (sub_modality = "DayAhead" ∨ sub_modality = "Intraday") →
      (∀ u, fetch u = AucPage.rows []) →
      collect_auction_one market_area auction sub_modality dateStr fetch dates =
        Except.ok none) ∧
    (∀ (α : Type) (entries : List (String × SpotPage α)),
      (∀ p ∈ entries, p.2 = SpotPage.noTable) →
      collect_continuous_one entries = Except.error ScanErr.keyErrorDate) := by
  constructor
  · intro market_area auction sub_modality dateStr fetch dates hsub hfetch
    have hpd : ∀ dd : Int,
        auction_process_date market_area auction sub_modality dateStr fetch dd =
          Except.ok ([], false) := by
      intro dd
      rcases hsub with h | h <;>
        simp [auction_process_date, auction_delivery_date, h, hfetch,
          fetch_auction_model, coerce_frame, coerce_column, zip4,
          fetch_auction_shape]
    have hscan : scan_dates_auction market_area auction sub_modality dateStr
        fetch dates = Except.ok [] := by
      induction dates with
      | nil => rfl
      | cons dd rest ih => simp [scan_dates_auction, hpd dd, ih]
    simp [collect_auction_one, hscan]
  · intro α entries hall
    have hscan : scan_dates_continuous entries = Except.ok [] := by
      induction entries with
      | nil => rfl
      | cons q rest ih =>
        have hq : q.2 = SpotPage.noTable := hall q (List.mem_cons_self q rest)
        have hrest := ih (fun p hp => hall p (List.mem_cons_of_mem q hp))
        simp [scan_dates_continuous, hq, fetch_spot_model, hrest]
    simp [collect_continuous_one, hscan]

/-- Witness for C7 (amended): concrete empty scans on both paths. -/
theorem empty_series_policy_witness :
    (collect_auction_one "DE-LU" "MRC" "DayAhead" (fun _ => "2024-09-01")
      (fun _ => AucPage.rows []) [0, 1] = Except.ok none) ∧
    (collect_continuous_one ([("2024-09-01", SpotPage.noTable)] :
      List (String × SpotPage Nat)) = Except.error ScanErr.keyErrorDate) :=
  ⟨empty_series_policy.1 "DE-LU" "MRC" "DayAhead" _ _ [0, 1] (Or.inl rfl)
    (fun _ => rfl),
   empty_series_policy.2 Nat _ (by simp)⟩

/-! ## Claim C8 -/

/-- **C8.** The auction scan iterates the trailing window of 5 consecutive
days ending today, and for every trading date in it the delivery date used
both for the request URL and for the time axis is the trading date plus one
day when the sub-modality is `DayAhead`, the trading date itself when it is
`Intraday`, and any other sub-modality fails with an error. -/
theorem auction_delivery_date_spec :
    (∀ today : Int,
      scan_window today = [today - 4, today - 3, today - 2, today - 1, today]) ∧
    (∀ (market_area auction sub_modality : String) (dateStr : Int → String)
        (fetch : String → AucPage) (today date : Int), date ∈ scan_window today →
      (sub_modality = "DayAhead" →
        auction_process_date market_area auction sub_modality dateStr fetch date =
          fetch_auction_model (dateStr (date + 1))
            (fetch (auction_url market_area auction (dateStr date)
              (dateStr (date + 1)) sub_modality))) ∧
      (sub_modality = "Intraday" →
        auction_process_date market_area auction sub_modality dateStr fetch date =
          fetch_auction_model (dateStr date)
            (fetch (auction_url market_area auction (dateStr date)
              (dateStr date) sub_modality))) ∧
      (sub_modality ≠ "DayAhead" → sub_modality ≠ "Intraday" →
        auction_process_date market_area auction sub_modality dateStr fetch date =
          Except.error (ScanErr.subModalityError sub_modality))) := by
  constructor
  · intro today
    have h5 : List.range 5 = [0, 1, 2, 3, 4] := rfl
    rw [scan_window, h5]
    simp only [List.map_cons, List.map_nil, List.cons.injEq, and_true]
    refine ⟨?_, ?_, ?_, ?_, ?_⟩ <;> push_cast <;> omega
  · intro market_area auction sub_modality dateStr fetch today date hmem
    refine ⟨?_, ?_, ?_⟩
    · intro h
      subst h
      rfl
    · intro h
      subst h
      rfl
    · intro h1 h2
      simp [auction_process_date, auction_delivery_date, h1, h2]

/-- Witness for C8 at today = 4, trading date 0 (a member of the window),
for each of the three sub-modality cases. -/
theorem auction_delivery_date_spec_witness :
    (auction_process_date "DE-LU" "MRC" "DayAhead" (fun _ => "2024-09-01")
        (fun _ => AucPage.rows []) 0 =
      fetch_auction_model ((fun _ : Int => "2024-09-01") (0 + 1))
        ((fun _ : String => AucPage.rows [])
          (auction_url "DE-LU" "MRC" ((fun _ : Int => "2024-09-01") 0)
            ((fun _ : Int => "2024-09-01") (0 + 1)) "DayAhead"))) ∧
    (auction_process_date "DE-LU" "IDA1" "Intraday" (fun _ => "2024-09-01")
        (fun _ => AucPage.rows []) 0 =
      fetch_auction_model ((fun _ : Int => "2024-09-01") 0)
        ((fun _ : String => AucPage.rows [])
          (auction_url "DE-LU" "IDA1" ((fun _ : Int => "2024-09-01") 0)
            ((fun _ : Int => "2024-09-01") 0) "Intraday"))) ∧
    (auction_process_date "DE-LU" "MRC" "Weekly" (fun _ => "2024-09-01")
        (fun _ => AucPage.rows []) 0 =
      Except.error (ScanErr.subModalityError "Weekly")) :=
  ⟨(auction_delivery_date_spec.2 "DE-LU" "MRC" "DayAhead" _ _ 4 0 (by decide)).1 rfl,
   (auction_delivery_date_spec.2 "DE-LU" "IDA1" "Intraday" _ _ 4 0 (by decide)).2.1 rfl,
   (auction_delivery_date_spec.2 "DE-LU" "MRC" "Weekly" _ _ 4 0 (by decide)).2.2
     (by decide) (by decide)⟩

/-! ## Claim C9 -/

/-- Counterexample for C9 as stated: the claim names the auction metric
columns `buy_volume, sell_volume, volume, price`, but the code's auction
`name_map` renames to capitalized `Buy_Volume, Sell_Volume, Volume, Price`,
so the normalized auction output's columns differ from the claimed set. -/
theorem auction_column_names_cex :
    rename_auction "Buy Volume (MWh)" = "Buy_Volume" ∧
    auction_output_columns = ["date", "Buy_Volume", "Sell_Volume", "Volume", "Price"] ∧
    auction_output_columns ≠ ["date", "buy_volume", "sell_volume", "volume", "price"] := by
  refine ⟨rfl, rfl, ?_⟩
  decide

theorem lookup_eq_none_of_no_key (m : List (String × String)) (c : String)
    (h : ∀ p ∈ m, c ≠ p.1) : List.lookup c m = none := by
  induction m with
  | nil => rfl
  | cons p rest ih =>
    obtain ⟨k, v⟩ := p
    have h2 : c ≠ k := by
      have h3 := h (k, v) (List.mem_cons_self _ rest)
      simpa using h3
    have h1 : (c == k) = false := beq_eq_false_iff_ne.mpr h2
    have ih2 := ih (fun q hq => h q (List.mem_cons_of_mem _ hq))
    simp [List.lookup, h1, ih2]

/-- **C9 (amended).** Recognized source headers are renamed to canonical
names by the fixed maps and unrecognized columns pass through unchanged; the
continuous canonical metric names are `low, high, last, weighted_avg,
id_full, id1, id3, buy_volume, sell_volume, total_volume` as claimed, but
the auction canonical names are the capitalized `Buy_Volume, Sell_Volume,
Volume, Price`, so the normalized auction output columns are
`date, Buy_Volume, Sell_Volume, Volume, Price`. -/
theorem column_rename_spec :
    ((continuous_name_map.map Prod.fst).map rename_continuous =
      ["low", "high", "last", "weighted_avg", "id_full", "id1", "id3",
       "buy_volume", "sell_volume", "total_volume"]) ∧
    (∀ c : String, (∀ p ∈ continuous_name_map, c ≠ p.1) → rename_continuous c = c) ∧
    (∀ c : String, (∀ p ∈ auction_name_map, c ≠ p.1) → rename_auction c = c) ∧
    (auction_output_columns = ["date", "Buy_Volume", "Sell_Volume", "Volume", "Price"]) := by
  refine ⟨rfl, ?_, ?_, rfl⟩
  · intro c h
    simp [rename_continuous, rename_by, lookup_eq_none_of_no_key _ _ h]
  · intro c h
    simp [rename_auction, rename_by, lookup_eq_none_of_no_key _ _ h]

/-- Witness for C9 (amended): the unrecognized header `"Date"` passes
through both rename maps unchanged. -/
theorem column_rename_spec_witness :
    rename_continuous "Date" = "Date" ∧ rename_auction "Date" = "Date" :=
  ⟨column_rename_spec.2.1 "Date" (by decide),
   column_rename_spec.2.2.1 "Date" (by decide)⟩

end Epex
